import Mathlib

/-!
# Verification of the mock marketplace-item service

A shallow embedding of `mock_service.py` (the in-memory mock of the ads
service) together with proofs about its validator, storage, handlers and
router.

Modelling conventions:
* JSON values are modelled by `JVal` (strings, integers, arrays, objects).
  JSON `null`, booleans and floats are not modelled; note that
  `json.loads` maps `null` to Python `None`, which `_read_json` already
  collapses into the same `Option.none` as a missing or unparsable body.
* Python `dict` is modelled as an association list in insertion order;
  assignment to an existing key replaces the value in place (Python dicts
  keep the original insertion position on overwrite) and `.values()` is
  `List.map Prod.snd`.
* `datetime.now(...)` is an oracle: each create request carries the
  timestamp string that the handler would have stamped.
* A handler that raises an uncaught Python exception (so that the client
  receives no HTTP response at all) is modelled by an `Except.error`
  from the validator and by `Option.none` in the handler's response slot.
* `urlparse`/`parse_qs` are standard-library code outside the repository:
  handlers receive the already-split path and query mapping, exactly the
  data those functions produce.
-/

/-- A parsed JSON value (the subset exercised by the service's API). -/
inductive JVal where
  | jstr (s : String)
  | jint (n : Int)
  | jarr (xs : List JVal)
  | jobj (fields : List (String × JVal))

/-- Python `d.get(k)` / `d[k]` on a dict modelled as an association list
(first match; real Python dicts have no duplicate keys). -/
def dictGet {α : Type} (d : List (String × α)) (k : String) : Option α :=
  match d with
  | [] => none
  | (k₀, v) :: rest => if k₀ = k then some v else dictGet rest k

/-- Python `d[k] = v`: replace in place if the key exists (keeping its
insertion position, as Python dicts do), otherwise append. -/
def dictInsert {α : Type} (d : List (String × α)) (k : String) (v : α) :
    List (String × α) :=
  match d with
  | [] => [(k, v)]
  | (k₀, v₀) :: rest =>
    if k₀ = k then (k, v) :: rest else (k₀, v₀) :: dictInsert rest k v

/-- `mock_service.Item` (a dataclass of six fields). -/
structure Item where
  id : String
  title : String
  description : String
  price : Int
  sellerId : Int
  createdAt : String
deriving DecidableEq

/-- `mock_service.Stats` (per-item counters, all defaulted to 0). -/
structure Stats where
  itemId : String
  views : Int := 0
  contacts : Int := 0
  favorites : Int := 0
deriving DecidableEq

/-- `mock_service.Storage`: the backing maps plus the id counter. -/
structure Storage where
  items : List (String × Item) := []
  stats : List (String × Stats) := []
  counter : Nat := 0

/-- `Storage.next_id`: increment the counter and render it in decimal
(Python `str(self.counter)`); returns the id together with the updated
storage since the Python method mutates `self`. -/
def Storage.next_id (s : Storage) : String × Storage :=
  (Nat.repr (s.counter + 1), { s with counter := s.counter + 1 })

/-- The storage a fresh `MockAdServer` starts from (`Storage()`). -/
def initStorage : Storage := {}

/-- `dataclasses.asdict` on an `Item`, i.e. the JSON object the service
serializes for an item (field order is declaration order). -/
def itemToJson (it : Item) : JVal :=
  .jobj [("id", .jstr it.id), ("title", .jstr it.title),
         ("description", .jstr it.description), ("price", .jint it.price),
         ("sellerId", .jint it.sellerId), ("createdAt", .jstr it.createdAt)]

/-- `dataclasses.asdict` on a `Stats` record. -/
def statsToJson (st : Stats) : JVal :=
  .jobj [("itemId", .jstr st.itemId), ("views", .jint st.views),
         ("contacts", .jint st.contacts), ("favorites", .jint st.favorites)]

/-! ## The validator (`Handler._validate_item`) -/

/-- The loop list `["title", "description", "price", "sellerId"]`. -/
def requiredFields : List String := ["title", "description", "price", "sellerId"]

/-- The `missing field` loop of `_validate_item`: one violation per absent
required field, in field order. -/
def missingFieldErrors (f : List (String × JVal)) : List String :=
  requiredFields.filterMap fun k =>
    if (dictGet f k).isNone then some ("missing field: " ++ k) else none

/-- `not isinstance(title, str) or not title` (with `payload.get("title", "")`
already substituted): a non-string value, or the empty string. -/
def py_title_bad (v : JVal) : Bool :=
  match v with
  | .jstr s => s = ""
  | _ => true

/-- `isinstance(title, str) and len(title) > 255`. -/
def py_title_long (v : JVal) : Bool :=
  match v with
  | .jstr s => 255 < s.length
  | _ => false

/-- `isinstance(description, str) and len(description) > 2000`. -/
def py_descr_long (v : JVal) : Bool :=
  match v with
  | .jstr s => 2000 < s.length
  | _ => false

/-- `not isinstance(price, int) or price <= 0` where `price` is
`payload.get("price")` (so `none` models Python `None`). -/
def py_price_bad (v : Option JVal) : Bool :=
  match v with
  | some (.jint n) => n ≤ 0
  | _ => true

/-- `not isinstance(seller_id, int) or not (111111 <= seller_id <= 999999)`. -/
def py_seller_bad (v : Option JVal) : Bool :=
  match v with
  | some (.jint n) => !(111111 ≤ n ∧ n ≤ 999999)
  | _ => true

/-- The field checks of `_validate_item` on an object payload, appended in
source order: missing fields, then title (empty/long), description
(empty/long), price, sellerId. -/
def validateFields (f : List (String × JVal)) : List String :=
  missingFieldErrors f
  ++ (if py_title_bad ((dictGet f "title").getD (.jstr "")) then
        ["title must be non-empty string"] else [])
  ++ (if py_title_long ((dictGet f "title").getD (.jstr "")) then
        ["title too long"] else [])
  ++ (if py_title_bad ((dictGet f "description").getD (.jstr "")) then
        ["description must be non-empty string"] else [])
  ++ (if py_descr_long ((dictGet f "description").getD (.jstr "")) then
        ["description too long"] else [])
  ++ (if py_price_bad (dictGet f "price") then
        ["price must be positive integer"] else [])
  ++ (if py_seller_bad (dictGet f "sellerId") then
        ["sellerId must be int in range 111111-999999"] else [])

/-- `Handler._validate_item`.  The argument is what `_read_json` returned
(`none` for a missing body, unparsable JSON, or JSON `null`).  A payload
that parses to a JSON array, string or number makes the Python code raise
(`payload.get` on a list/str raises `AttributeError`; `"title" not in 5`
raises `TypeError`); that uncaught exception is the `Except.error` case. -/
def validate_item : Option JVal → Except String (List String)
  | none => .ok ["body must be JSON"]
  | some (.jobj f) => .ok (validateFields f)
  | some (.jarr _) => .error "AttributeError: list object has no attribute get"
  | some (.jstr _) => .error "AttributeError: str object has no attribute get"
  | some (.jint _) => .error "TypeError: argument of type int is not iterable"

/-! ## The handlers -/

/-- `payload["title"]`-style extraction; the defaults are unreachable when
validation has passed (which guarantees the field is a string). -/
def getStr (f : List (String × JVal)) (k : String) : String :=
  match dictGet f k with
  | some (.jstr s) => s
  | _ => ""

/-- Integer-field extraction; ditto, unreachable defaults. -/
def getInt (f : List (String × JVal)) (k : String) : Int :=
  match dictGet f k with
  | some (.jint n) => n
  | _ => 0

/-- `Handler._handle_create_item`.  `body` is the parsed request body,
`now` the timestamp oracle.  The response is `none` when the Python
handler raises (non-object JSON payloads) and `some (status, body)`
otherwise. -/
def handle_create_item (st : Storage) (body : Option JVal) (now : String) :
    Storage × Option (Nat × JVal) :=
  match validate_item body with
  | .error _ => (st, none)
  | .ok (e :: es) =>
    (st, some (400, .jobj [("errors", .jarr ((e :: es).map .jstr))]))
  | .ok [] =>
    match body with
    | some (.jobj f) =>
      let idSt := st.next_id
      let item : Item :=
        { id := idSt.1, title := getStr f "title",
          description := getStr f "description", price := getInt f "price",
          sellerId := getInt f "sellerId", createdAt := now }
      let st₂ : Storage :=
        { idSt.2 with
          items := dictInsert idSt.2.items idSt.1 item,
          stats := dictInsert idSt.2.stats idSt.1 { itemId := idSt.1 } }
      (st₂, some (201, .jobj [("item", itemToJson item)]))
    | _ => (st, none)

/-- `Handler._handle_get_item`. -/
def handle_get_item (st : Storage) (item_id : String) : Nat × JVal :=
  match dictGet st.items item_id with
  | none => (404, .jobj [("error", .jstr "item not found")])
  | some it => (200, .jobj [("item", itemToJson it)])

/-- `Handler._handle_stats`. -/
def handle_stats (st : Storage) (item_id : String) : Nat × JVal :=
  match dictGet st.stats item_id with
  | none => (404, .jobj [("error", .jstr "stats not found")])
  | some s => (200, .jobj [("statistics", statsToJson s)])

/-! ## Listing (`Handler._handle_list_items`) -/

/-- The sort key relation of `items.sort(key=lambda x: x["createdAt"])`:
compare by the `createdAt` string (Python compares `str` lexicographically
by code point, as Lean's `String` order does). -/
def createdAtLe (a b : Item) : Prop := a.createdAt ≤ b.createdAt

instance : DecidableRel createdAtLe := fun a b =>
  inferInstanceAs (Decidable (a.createdAt ≤ b.createdAt))

instance : IsTotal Item createdAtLe :=
  ⟨fun a b => le_total a.createdAt b.createdAt⟩

instance : IsTrans Item createdAtLe :=
  ⟨fun _ _ _ h₁ h₂ => le_trans h₁ h₂⟩

/-- The list comprehension of `_handle_list_items`: the stored items (in
dict insertion order) whose `sellerId` matches. -/
def sellerItems (st : Storage) (sid : Int) : List Item :=
  (st.items.map Prod.snd).filter fun it => it.sellerId = sid

/-- The matching items after `items.sort(key=lambda x: x["createdAt"])`.
Python's `list.sort` is a stable sort; `List.insertionSort` computes the
same (unique) stable sort by the same key.  The Python code sorts the
already-serialized dicts; sorting the items first and serializing after
is the same list since serialization preserves `createdAt`. -/
def list_by_seller (st : Storage) (sid : Int) : List Item :=
  List.insertionSort createdAtLe (sellerItems st sid)

/-- Python `int(s)` as used on the `sellerId` query parameter: optional
surrounding whitespace, an optional single sign, then decimal digits.
(Underscore digit grouping and non-ASCII digits, which CPython also
accepts, are not modelled; no claim exercises them.) -/
def decDigit? (c : Char) : Option Nat :=
  if '0' ≤ c ∧ c ≤ '9' then some (c.toNat - 48) else none

/-- Accumulate decimal digits left to right; `none` on a non-digit. -/
def decValGo : List Char → Nat → Option Nat
  | [], acc => some acc
  | c :: cs, acc =>
    match decDigit? c with
    | some d => decValGo cs (10 * acc + d)
    | none => none

/-- Value of a non-empty all-digit character list. -/
def decVal : List Char → Option Nat
  | [] => none
  | c :: cs => decValGo (c :: cs) 0

/-- Strip whitespace from both ends (Python `str` parsing by `int`). -/
def pyStripWs (cs : List Char) : List Char :=
  ((cs.dropWhile Char.isWhitespace).reverse.dropWhile Char.isWhitespace).reverse

/-- Python `int(s)`, returning `none` where CPython raises `ValueError`. -/
def pyInt (s : String) : Option Int :=
  match pyStripWs s.data with
  | '+' :: cs => (decVal cs).map Int.ofNat
  | '-' :: cs => (decVal cs).map fun n => -(n : Int)
  | cs => (decVal cs).map Int.ofNat

/-- `Handler._handle_list_items`: parse the seller id (400 on
`ValueError`), require it (400 when the query parameter was absent),
range-check it (400 outside `[111111, 999999]`), then serve the sorted
matching items. -/
def handle_list_items (st : Storage) (seller : Option String) : Nat × JVal :=
  match seller with
  | none => (400, .jobj [("error", .jstr "sellerId is required")])
  | some s =>
    match pyInt s with
    | none => (400, .jobj [("error", .jstr "sellerId must be integer")])
    | some sid =>
      if 111111 ≤ sid ∧ sid ≤ 999999 then
        (200, .jobj [("items", .jarr ((list_by_seller st sid).map itemToJson))])
      else
        (400, .jobj [("error", .jstr "sellerId must be in range 111111-999999")])

/-! ## The router (`Handler.do_GET` / `Handler.do_POST`) -/

/-- `a.startswith(b)` on character lists (`listLeads pat s` holds when
`pat` is an initial run of `s`). -/
def listLeads : List Char → List Char → Bool
  | [], _ => true
  | _ :: _, [] => false
  | a :: as, b :: bs => a = b && listLeads as bs

/-- `path.split("/")[-1]`: the final path segment (Python `str.split` with
an explicit separator behaves as `String.splitOn`, and the split list is
never empty, so the default of `getLastD` is never used). -/
def lastSegment (path : String) : String :=
  (path.splitOn "/").getLastD ""

/-- `params.get("sellerId")` followed by `seller_ids[0] if seller_ids else
None` on the `parse_qs` result. -/
def queryFirst (query : List (String × List String)) (k : String) :
    Option String :=
  match dictGet query k with
  | some (s :: _) => some s
  | _ => none

/-- `Handler.do_GET`, taking the `urlparse`d path and the `parse_qs`
query mapping.  `send_error(404, ...)` writes an HTML error page; only
its status is modelled. -/
def do_GET (st : Storage) (path : String)
    (query : List (String × List String)) : Nat × JVal :=
  if listLeads "/api/1/item/".data path.data then
    handle_get_item st (lastSegment path)
  else if listLeads "/api/1/items".data path.data then
    handle_list_items st (queryFirst query "sellerId")
  else if listLeads "/api/1/statistics/".data path.data then
    handle_stats st (lastSegment path)
  else
    (404, .jstr "Not Found")

/-- `self.path.rstrip("/")`: drop every trailing `'/'`. -/
def pyRstripSlash (s : String) : String :=
  String.mk ((s.data.reverse.dropWhile fun c => c = '/').reverse)

/-- `Handler.do_POST`. -/
def do_POST (st : Storage) (path : String) (body : Option JVal)
    (now : String) : Storage × Option (Nat × JVal) :=
  if pyRstripSlash path = "/api/1/item" then
    handle_create_item st body now
  else
    (st, some (404, .jstr "Not Found"))

/-- One HTTP request, as the handlers see it: a POST carries the parsed
body and the timestamp oracle, a GET carries the split path and query. -/
inductive Req where
  | post (path : String) (body : Option JVal) (now : String)
  | get (path : String) (query : List (String × List String))

/-- One request/response step of the service.  The response is `none`
when the Python handler raised and the connection was dropped without a
response. -/
def step (st : Storage) : Req → Storage × Option (Nat × JVal)
  | .post path body now => do_POST st path body now
  | .get path query => (st, some (do_GET st path query))

/-! ## Sequences of create requests (for the identifier claims) -/

/-- The id reported in a `201` response body (`body["item"]["id"]`). -/
def createdId (v : JVal) : Option String :=
  match v with
  | .jobj [("item", .jobj fields)] =>
    match dictGet fields "id" with
    | some (.jstr s) => some s
    | _ => none
  | _ => none

/-- Run a sequence of create requests (each a body plus timestamp),
collecting the ids reported by the successful (201) creations in order. -/
def runCreates (st : Storage) :
    List (Option JVal × String) → Storage × List String
  | [] => (st, [])
  | (body, now) :: rest =>
    let stepRes := handle_create_item st body now
    let restRes := runCreates stepRes.1 rest
    match stepRes.2 with
    | some p =>
      if p.1 = 201 then
        (restRes.1, ((createdId p.2).map fun i => [i]).getD [] ++ restRes.2)
      else (restRes.1, restRes.2)
    | none => (restRes.1, restRes.2)

/-! ## Auxiliary definitions used by the statements below -/

/-- The type/value violation `_validate_item` reports for each required
field when its value fails the field's check. -/
def fieldValueMsg : String → String
  | "title" => "title must be non-empty string"
  | "description" => "description must be non-empty string"
  | "price" => "price must be positive integer"
  | _ => "sellerId must be int in range 111111-999999"

/-- A 260-character title (the spec's example input). -/
def title260 : String := String.mk (List.replicate 260 'a')

/-- A payload whose fields are all valid except for the oversized title. -/
def payload260 : JVal :=
  .jobj [("title", .jstr title260), ("description", .jstr "d"),
         ("price", .jint 1), ("sellerId", .jint 123456)]

/-- The violations `_validate_item` reports for the empty object. -/
def emptyObjViolations : List String :=
  ["missing field: title", "missing field: description",
   "missing field: price", "missing field: sellerId",
   "title must be non-empty string", "description must be non-empty string",
   "price must be positive integer",
   "sellerId must be int in range 111111-999999"]

/-- The store invariant: items and statistics are keyed by the same ids
(one statistics record per item, none independent), every statistics
record carries its own key as `itemId` with all three counters 0, and
neither map has duplicate keys. -/
def StoreInv (st : Storage) : Prop :=
  (∀ k, (dictGet st.items k).isSome ↔ (dictGet st.stats k).isSome)
  ∧ (∀ k s, dictGet st.stats k = some s → s = ⟨k, 0, 0, 0⟩)
  ∧ (st.items.map Prod.fst).Nodup ∧ (st.stats.map Prod.fst).Nodup

/-- `s` followed by `n` trailing slashes. -/
def withSlashes (s : String) (n : Nat) : String :=
  s ++ String.mk (List.replicate n '/')

/-- The numeric value of a decimal-digit string (0 as a junk default). -/
def natValue (s : String) : Nat := (decVal s.data).getD 0

/-- The create payload `{"title": t, "description": d, "price": pr,
"sellerId": sid}`. -/
def mkPayload (t d : String) (pr sid : Int) : JVal :=
  .jobj [("title", .jstr t), ("description", .jstr d),
         ("price", .jint pr), ("sellerId", .jint sid)]

/-! ## Dictionary lemmas -/

theorem dictGet_insert_self {α : Type} (d : List (String × α)) (k : String)
    (v : α) : dictGet (dictInsert d k v) k = some v := by
  induction d with
  | nil => simp [dictGet, dictInsert]
  | cons hd tl ih =>
    obtain ⟨k₀, v₀⟩ := hd
    by_cases hk : k₀ = k
    · simp [dictGet, dictInsert, hk]
    · simp [dictGet, dictInsert, hk, ih]

theorem dictGet_insert_ne {α : Type} (d : List (String × α)) (k k' : String)
    (v : α) (h : k' ≠ k) :
    dictGet (dictInsert d k v) k' = dictGet d k' := by
  induction d with
  | nil => simp [dictGet, dictInsert, Ne.symm h]
  | cons hd tl ih =>
    obtain ⟨k₀, v₀⟩ := hd
    by_cases hk : k₀ = k
    · subst hk
      simp [dictGet, dictInsert, Ne.symm h]
    · simp [dictGet, dictInsert, hk, ih]

/-! ## Claim C1: create/get round-trip -/

theorem validateFields_of_ok {f : List (String × JVal)}
    {errs : List String}
    (h : validate_item (some (.jobj f)) = .ok errs) : validateFields f = errs := by
  simpa [validate_item] using h

/-- C1.  Creating an item from a payload whose four fields are present and
valid (validation passes) responds 201 with the stored item, and an
immediate get by the returned id responds 200 with an item carrying the
same `title`, `description`, `price` and `sellerId` as the payload. -/
theorem create_then_get_roundtrip
    (st : Storage) (f : List (String × JVal)) (t d : String)
    (pr sid : Int) (now : String)
    (ht : dictGet f "title" = some (.jstr t))
    (hd : dictGet f "description" = some (.jstr d))
    (hp : dictGet f "price" = some (.jint pr))
    (hs : dictGet f "sellerId" = some (.jint sid))
    (hv : validate_item (some (.jobj f)) = .ok []) :
    ∃ (st' : Storage) (item_id : String),
      handle_create_item st (some (.jobj f)) now =
        (st', some (201, .jobj [("item", itemToJson ⟨item_id, t, d, pr, sid, now⟩)]))
      ∧ handle_get_item st' item_id =
          (200, .jobj [("item", itemToJson ⟨item_id, t, d, pr, sid, now⟩)]) := by
  have hvf : validateFields f = [] := validateFields_of_ok hv
  have hT : getStr f "title" = t := by simp [getStr, ht]
  have hD : getStr f "description" = d := by simp [getStr, hd]
  have hP : getInt f "price" = pr := by simp [getInt, hp]
  have hS : getInt f "sellerId" = sid := by simp [getInt, hs]
  refine ⟨⟨dictInsert st.items (Nat.repr (st.counter + 1))
              ⟨Nat.repr (st.counter + 1), t, d, pr, sid, now⟩,
           dictInsert st.stats (Nat.repr (st.counter + 1))
              ⟨Nat.repr (st.counter + 1), 0, 0, 0⟩,
           st.counter + 1⟩,
        Nat.repr (st.counter + 1), ?_, ?_⟩
  · simp [handle_create_item, validate_item, hvf, Storage.next_id,
      hT, hD, hP, hS]
  · simp [handle_get_item, dictGet_insert_self]

/-- Witness for C1 at a concrete payload. -/
theorem create_then_get_roundtrip_witness :
    ∃ (st' : Storage) (item_id : String),
      handle_create_item initStorage
          (some (.jobj [("title", .jstr "Bike"), ("description", .jstr "Good"),
                        ("price", .jint 15000), ("sellerId", .jint 123456)])) "T1" =
        (st', some (201, .jobj [("item",
            itemToJson ⟨item_id, "Bike", "Good", 15000, 123456, "T1"⟩)]))
      ∧ handle_get_item st' item_id =
          (200, .jobj [("item",
            itemToJson ⟨item_id, "Bike", "Good", 15000, 123456, "T1"⟩)]) :=
  create_then_get_roundtrip initStorage
    [("title", .jstr "Bike"), ("description", .jstr "Good"),
     ("price", .jint 15000), ("sellerId", .jint 123456)]
    "Bike" "Good" 15000 123456 "T1" rfl rfl rfl rfl rfl

/-! ## Claim C3: malformed create bodies -/

/-- C3 (code bug).  A missing or unparsable body does get the single
generic 400 violation, but a body that parses to a JSON array (or any
other non-object value) makes `_validate_item` raise before any response is
written: `payload.get("title", "")` on a `list` raises `AttributeError`,
so the service sends no 400 at all for such bodies. -/
theorem create_malformed_body_paths :
    handle_create_item initStorage none "T" =
      (initStorage, some (400, .jobj [("errors", .jarr [.jstr "body must be JSON"])]))
    ∧ handle_create_item initStorage (some (.jarr [])) "T" = (initStorage, none)
    ∧ validate_item (some (.jarr [])) =
        .error "AttributeError: list object has no attribute get" :=
  ⟨rfl, rfl, rfl⟩

/-! ## Validator membership lemmas -/

theorem mem_ite_singleton {c : Prop} [Decidable c] {s a : String} :
    (s ∈ (if c then [a] else ([] : List String))) ↔ c ∧ s = a := by
  split <;> simp_all

theorem mem_validateFields_iff {f : List (String × JVal)} {s : String} :
    s ∈ validateFields f ↔
      s ∈ missingFieldErrors f
      ∨ (py_title_bad ((dictGet f "title").getD (.jstr "")) = true
          ∧ s = "title must be non-empty string")
      ∨ (py_title_long ((dictGet f "title").getD (.jstr "")) = true
          ∧ s = "title too long")
      ∨ (py_title_bad ((dictGet f "description").getD (.jstr "")) = true
          ∧ s = "description must be non-empty string")
      ∨ (py_descr_long ((dictGet f "description").getD (.jstr "")) = true
          ∧ s = "description too long")
      ∨ (py_price_bad (dictGet f "price") = true
          ∧ s = "price must be positive integer")
      ∨ (py_seller_bad (dictGet f "sellerId") = true
          ∧ s = "sellerId must be int in range 111111-999999") := by
  simp [validateFields, List.mem_append, mem_ite_singleton, or_assoc]

theorem missingFieldErrors_shape {f : List (String × JVal)} {s : String}
    (h : s ∈ missingFieldErrors f) :
    s = "missing field: title" ∨ s = "missing field: description"
    ∨ s = "missing field: price" ∨ s = "missing field: sellerId" := by
  simp only [missingFieldErrors, requiredFields, List.filterMap_cons,
    List.filterMap_nil] at h
  split_ifs at h <;> simp_all <;> tauto

theorem mem_missingFieldErrors {f : List (String × JVal)} {k : String}
    (hk : k ∈ requiredFields) (h : dictGet f k = none) :
    ("missing field: " ++ k) ∈ missingFieldErrors f := by
  simp only [missingFieldErrors, List.mem_filterMap]
  exact ⟨k, hk, by simp [h]⟩

/-! ## Claim C9: absent fields fail both their checks -/

/-- C9.  A well-formed object payload that omits a required field draws
both the `missing field` violation for that field and the field's
type/value violation (the absent field is checked against a default that
always fails); in particular the empty object draws exactly eight
violations, two per field. -/
theorem missing_field_double_violation :
    validate_item (some (.jobj [])) = .ok emptyObjViolations
    ∧ ∀ (f : List (String × JVal)) (k : String), k ∈ requiredFields →
        dictGet f k = none →
        ∀ errs, validate_item (some (.jobj f)) = .ok errs →
          ("missing field: " ++ k) ∈ errs ∧ fieldValueMsg k ∈ errs := by
  refine ⟨rfl, ?_⟩
  intro f k hk hnone errs herrs
  have herrs' : validateFields f = errs := validateFields_of_ok herrs
  subst herrs'
  refine ⟨mem_validateFields_iff.mpr (Or.inl (mem_missingFieldErrors hk hnone)), ?_⟩
  have hk' : k = "title" ∨ k = "description" ∨ k = "price" ∨ k = "sellerId" := by
    simpa [requiredFields] using hk
  rcases hk' with rfl | rfl | rfl | rfl
  · exact mem_validateFields_iff.mpr
      (Or.inr (Or.inl ⟨by simp [hnone, py_title_bad], rfl⟩))
  · exact mem_validateFields_iff.mpr
      (Or.inr (Or.inr (Or.inr (Or.inl ⟨by simp [hnone, py_title_bad], rfl⟩))))
  · exact mem_validateFields_iff.mpr
      (Or.inr (Or.inr (Or.inr (Or.inr (Or.inr
        (Or.inl ⟨by simp [hnone, py_price_bad], rfl⟩))))))
  · exact mem_validateFields_iff.mpr
      (Or.inr (Or.inr (Or.inr (Or.inr (Or.inr
        (Or.inr ⟨by simp [hnone, py_seller_bad], rfl⟩))))))

/-- Witness for C9 at the empty object and the `title` field. -/
theorem missing_field_double_violation_witness :
    "missing field: title" ∈ emptyObjViolations
    ∧ fieldValueMsg "title" ∈ emptyObjViolations :=
  missing_field_double_violation.2 [] "title" (by decide) rfl
    emptyObjViolations missing_field_double_violation.1

/-! ## Claim C2: the two title checks -/

set_option maxRecDepth 4000 in
/-- C2 counterexample.  On the claim's own example — a payload whose title
is a 260-character string (other fields valid) — the validator reports
exactly one violation, `title too long`; the `wrong type/empty` violation
does not appear together with it. -/
theorem title260_single_violation :
    validate_item (some payload260) = .ok ["title too long"] := rfl

/-- C2 amended.  The `wrong type/empty` and `too long` checks for `title`
are distinct checks whose conditions are evaluated independently (no
short-circuit), but they are mutually exclusive: `too long` requires a
string value, which is then necessarily non-empty, so no single payload
makes both violations appear in the validator's output (a 260-character
title yields the single violation `title too long`). -/
theorem title_checks_mutually_exclusive :
    ∀ (body : Option JVal) (errs : List String),
      validate_item body = .ok errs →
      "title too long" ∈ errs → "title must be non-empty string" ∉ errs := by
  intro body errs hok hlong hbad
  match body with
  | none =>
    simp only [validate_item, Except.ok.injEq] at hok
    subst hok
    simp at hlong
  | some (.jarr xs) => simp [validate_item] at hok
  | some (.jstr s) => simp [validate_item] at hok
  | some (.jint n) => simp [validate_item] at hok
  | some (.jobj f) =>
    have he : validateFields f = errs := validateFields_of_ok hok
    subst he
    rw [mem_validateFields_iff] at hlong hbad
    have hlongTrue : py_title_long ((dictGet f "title").getD (.jstr "")) = true := by
      rcases hlong with hm | ⟨_, hs⟩ | ⟨hc, _⟩ | ⟨_, hs⟩ | ⟨_, hs⟩ | ⟨_, hs⟩ | ⟨_, hs⟩
      · rcases missingFieldErrors_shape hm with hs | hs | hs | hs <;> exact absurd hs (by decide)
      · exact absurd hs (by decide)
      · exact hc
      · exact absurd hs (by decide)
      · exact absurd hs (by decide)
      · exact absurd hs (by decide)
      · exact absurd hs (by decide)
    have hbadTrue : py_title_bad ((dictGet f "title").getD (.jstr "")) = true := by
      rcases hbad with hm | ⟨hc, _⟩ | ⟨_, hs⟩ | ⟨_, hs⟩ | ⟨_, hs⟩ | ⟨_, hs⟩ | ⟨_, hs⟩
      · rcases missingFieldErrors_shape hm with hs | hs | hs | hs <;> exact absurd hs (by decide)
      · exact hc
      · exact absurd hs (by decide)
      · exact absurd hs (by decide)
      · exact absurd hs (by decide)
      · exact absurd hs (by decide)
      · exact absurd hs (by decide)
    match hv : (dictGet f "title").getD (.jstr "") with
    | .jstr s =>
      rw [hv] at hlongTrue hbadTrue
      simp [py_title_long] at hlongTrue
      simp [py_title_bad] at hbadTrue
      subst hbadTrue
      simp at hlongTrue
    | .jint n => rw [hv] at hlongTrue; simp [py_title_long] at hlongTrue
    | .jarr xs => rw [hv] at hlongTrue; simp [py_title_long] at hlongTrue
    | .jobj g => rw [hv] at hlongTrue; simp [py_title_long] at hlongTrue

set_option maxRecDepth 4000 in
/-- Witness for the amended C2 at the 260-character-title payload. -/
theorem title_checks_mutually_exclusive_witness :
    "title must be non-empty string" ∉ ["title too long"] :=
  title_checks_mutually_exclusive (some payload260) ["title too long"] rfl
    (by decide)

/-! ## Claim C7: validation boundaries for create -/

theorem validateFields_mkPayload_nil {t d : String} {pr sid : Int}
    (ht0 : t ≠ "") (ht1 : t.length ≤ 255) (hd0 : d ≠ "") (hd1 : d.length ≤ 2000)
    (hpr : 0 < pr) (hs1 : 111111 ≤ sid) (hs2 : sid ≤ 999999) :
    validate_item (some (mkPayload t d pr sid)) = .ok [] := by
  simp [validate_item, validateFields, mkPayload, missingFieldErrors,
    requiredFields, dictGet, py_title_bad, py_title_long, py_descr_long,
    py_price_bad, py_seller_bad, ht0, hd0, not_lt.mpr ht1, not_lt.mpr hd1,
    not_le.mpr hpr, hs1, hs2]

theorem create_status_400_of_err {st : Storage} {f : List (String × JVal)}
    {now s : String} (h : s ∈ validateFields f) :
    (handle_create_item st (some (.jobj f)) now).2.map Prod.fst = some 400 := by
  obtain ⟨e, es, hee⟩ := List.exists_cons_of_ne_nil (List.ne_nil_of_mem h)
  simp [handle_create_item, validate_item, hee]

/-- C7.  Boundary behaviour of create-side validation: a payload with
`sellerId` exactly 111111 or exactly 999999 (other fields valid) is
accepted with 201, while any payload carrying `sellerId` 111110 or
1000000 is rejected with 400; a title of exactly 255 characters (other
fields valid) is accepted with 201, while any payload carrying a
256-character or empty-string title is rejected with 400. -/
theorem create_validation_boundaries :
    (∀ (st : Storage) (now t d : String) (pr : Int),
      t ≠ "" → t.length ≤ 255 → d ≠ "" → d.length ≤ 2000 → 0 < pr →
      (handle_create_item st (some (mkPayload t d pr 111111)) now).2.map Prod.fst
          = some 201
      ∧ (handle_create_item st (some (mkPayload t d pr 999999)) now).2.map Prod.fst
          = some 201)
    ∧ (∀ (st : Storage) (now : String) (f : List (String × JVal)) (sid : Int),
        dictGet f "sellerId" = some (.jint sid) →
        sid = 111110 ∨ sid = 1000000 →
        (handle_create_item st (some (.jobj f)) now).2.map Prod.fst = some 400)
    ∧ (∀ (st : Storage) (now t d : String) (pr sid : Int),
        t.length = 255 → d ≠ "" → d.length ≤ 2000 → 0 < pr →
        111111 ≤ sid → sid ≤ 999999 →
        (handle_create_item st (some (mkPayload t d pr sid)) now).2.map Prod.fst
          = some 201)
    ∧ (∀ (st : Storage) (now : String) (f : List (String × JVal)) (t : String),
        dictGet f "title" = some (.jstr t) →
        t.length = 256 ∨ t = "" →
        (handle_create_item st (some (.jobj f)) now).2.map Prod.fst = some 400) := by
  refine ⟨?_, ?_, ?_, ?_⟩
  · intro st now t d pr ht0 ht1 hd0 hd1 hpr
    have h1 : validate_item (some (mkPayload t d pr 111111)) = .ok [] :=
      validateFields_mkPayload_nil ht0 ht1 hd0 hd1 hpr (by omega) (by omega)
    have h2 : validate_item (some (mkPayload t d pr 999999)) = .ok [] :=
      validateFields_mkPayload_nil ht0 ht1 hd0 hd1 hpr (by omega) (by omega)
    simp only [mkPayload] at h1 h2
    exact ⟨by simp [handle_create_item, mkPayload, h1],
           by simp [handle_create_item, mkPayload, h2]⟩
  · intro st now f sid hget hsid
    apply create_status_400_of_err
    apply mem_validateFields_iff.mpr
    refine Or.inr (Or.inr (Or.inr (Or.inr (Or.inr (Or.inr ⟨?_, rfl⟩)))))
    rcases hsid with rfl | rfl <;> simp [hget, py_seller_bad]
  · intro st now t d pr sid ht255 hd0 hd1 hpr hs1 hs2
    have ht0 : t ≠ "" := by
      intro h
      rw [h] at ht255
      simp at ht255
    have h1 : validate_item (some (mkPayload t d pr sid)) = .ok [] :=
      validateFields_mkPayload_nil ht0 (by omega) hd0 hd1 hpr hs1 hs2
    simp only [mkPayload] at h1
    simp [handle_create_item, mkPayload, h1]
  · intro st now f t hget ht
    rcases ht with ht | rfl
    · exact create_status_400_of_err (mem_validateFields_iff.mpr
        (Or.inr (Or.inr (Or.inl ⟨by simp [hget, py_title_long, ht], rfl⟩))))
    · exact create_status_400_of_err (mem_validateFields_iff.mpr
        (Or.inr (Or.inl ⟨by simp [hget, py_title_bad], rfl⟩)))

/-- Witness for C7 at concrete boundary payloads. -/
theorem create_validation_boundaries_witness :
    (handle_create_item initStorage (some (mkPayload "x" "y" 1 111111)) "T").2.map
        Prod.fst = some 201
    ∧ (handle_create_item initStorage
        (some (mkPayload "x" "y" 1 111110)) "T").2.map Prod.fst = some 400 :=
  ⟨(create_validation_boundaries.1 initStorage "T" "x" "y" 1 (by decide)
      (by decide) (by decide) (by decide) (by decide)).1,
   create_validation_boundaries.2.1 initStorage "T"
      [("title", .jstr "x"), ("description", .jstr "y"),
       ("price", .jint 1), ("sellerId", .jint 111110)] 111110 rfl (Or.inl rfl)⟩

/-! ## Router lemmas -/

theorem listLeads_iff {p l : List Char} :
    listLeads p l = true ↔ ∃ t, l = p ++ t := by
  induction p generalizing l with
  | nil => simp [listLeads]
  | cons a as ih =>
    cases l with
    | nil => simp [listLeads]
    | cons b bs =>
      rw [listLeads]
      simp only [Bool.and_eq_true, decide_eq_true_eq, ih, List.cons_append]
      constructor
      · rintro ⟨rfl, t, rfl⟩
        exact ⟨t, rfl⟩
      · rintro ⟨t, ht⟩
        rw [List.cons.injEq] at ht
        exact ⟨ht.1.symm, t, ht.2⟩

theorem not_item_slash_of_items {l : List Char}
    (h : listLeads "/api/1/items".data l = true) :
    listLeads "/api/1/item/".data l = false := by
  rw [listLeads_iff] at h
  obtain ⟨t, rfl⟩ := h
  by_contra hx
  rw [Bool.not_eq_false, listLeads_iff] at hx
  obtain ⟨u, hu⟩ := hx
  have hlen : ("/api/1/items".data).length = ("/api/1/item/".data).length := by
    decide
  exact absurd (List.append_inj hu.symm hlen).1 (by decide)

theorem dropWhile_slash_replicate (n : Nat) (l : List Char) :
    List.dropWhile (fun c => c = '/') (List.replicate n '/' ++ l) =
      List.dropWhile (fun c => c = '/') l := by
  induction n with
  | zero => rfl
  | succ n ih =>
    rw [List.replicate_succ, List.cons_append,
      List.dropWhile_cons_of_pos (by simp)]
    exact ih

theorem pyRstripSlash_withSlashes (s : String) (n : Nat) :
    pyRstripSlash (withSlashes s n) = pyRstripSlash s := by
  unfold pyRstripSlash withSlashes
  rw [String.data_append]
  congr 1
  rw [show (String.mk (List.replicate n '/')).data = List.replicate n '/' from rfl]
  rw [List.reverse_append, List.reverse_replicate, dropWhile_slash_replicate]

/-! ## Claim C10: prefix-based route matching -/

/-- C10.  The router matches GET routes by path prefix rather than exact
pattern: every GET path starting with `/api/1/items` is dispatched to
list-by-seller (never 404), every GET path starting with `/api/1/item/`
is dispatched to get-by-id with the final path segment as the item id,
and POST dispatches `/api/1/item` with any number of trailing slashes to
create. -/
theorem router_matches_by_path_run :
    (∀ (st : Storage) (path : String) (q : List (String × List String)),
        listLeads "/api/1/items".data path.data = true →
        do_GET st path q = handle_list_items st (queryFirst q "sellerId"))
    ∧ (∀ (st : Storage) (path : String) (q : List (String × List String)),
        listLeads "/api/1/item/".data path.data = true →
        do_GET st path q = handle_get_item st (lastSegment path))
    ∧ (∀ (st : Storage) (body : Option JVal) (now : String) (n : Nat),
        do_POST st (withSlashes "/api/1/item" n) body now =
          handle_create_item st body now) := by
  refine ⟨?_, ?_, ?_⟩
  · intro st path q h
    rw [do_GET, if_neg (by simp [not_item_slash_of_items h]), if_pos (by simp [h])]
  · intro st path q h
    rw [do_GET, if_pos (by simp [h])]
  · intro st body now n
    have hs : pyRstripSlash (withSlashes "/api/1/item" n) = "/api/1/item" := by
      rw [pyRstripSlash_withSlashes]
      rfl
    rw [do_POST, if_pos hs]

/-- Witness for C10: `/api/1/items/extra` goes to list-by-seller,
`/api/1/item/a/b` goes to get-by-id with the last segment as id, and
`/api/1/item///` is handled as a create. -/
theorem router_matches_by_path_run_witness :
    do_GET initStorage "/api/1/items/extra" [] =
      handle_list_items initStorage (queryFirst [] "sellerId")
    ∧ do_GET initStorage "/api/1/item/a/b" [] =
      handle_get_item initStorage (lastSegment "/api/1/item/a/b")
    ∧ do_POST initStorage (withSlashes "/api/1/item" 3) none "T" =
      handle_create_item initStorage none "T" :=
  ⟨router_matches_by_path_run.1 initStorage "/api/1/items/extra" [] (by decide),
   router_matches_by_path_run.2.1 initStorage "/api/1/item/a/b" [] (by decide),
   router_matches_by_path_run.2.2 initStorage none "T" 3⟩

/-! ## Claim C8: GET /api/1/items parameter handling -/

/-- C8.  For GET `/api/1/items`: a missing `sellerId` query parameter, a
non-integer `sellerId`, and an integer `sellerId` outside
`[111111, 999999]` are three distinct error paths that all answer status
400, while any in-range integer `sellerId` answers 200 with an items
list. -/
theorem list_items_query_paths :
    ∀ (st : Storage) (q : List (String × List String)),
      (queryFirst q "sellerId" = none →
        do_GET st "/api/1/items" q =
          (400, .jobj [("error", .jstr "sellerId is required")]))
      ∧ (∀ s, queryFirst q "sellerId" = some s → pyInt s = none →
        do_GET st "/api/1/items" q =
          (400, .jobj [("error", .jstr "sellerId must be integer")]))
      ∧ (∀ s sid, queryFirst q "sellerId" = some s → pyInt s = some sid →
        ¬(111111 ≤ sid ∧ sid ≤ 999999) →
        do_GET st "/api/1/items" q =
          (400, .jobj [("error", .jstr "sellerId must be in range 111111-999999")]))
      ∧ (∀ s sid, queryFirst q "sellerId" = some s → pyInt s = some sid →
        111111 ≤ sid → sid ≤ 999999 →
        do_GET st "/api/1/items" q =
          (200, .jobj [("items", .jarr ((list_by_seller st sid).map itemToJson))])) := by
  intro st q
  have hroute : ∀ r : Option String, queryFirst q "sellerId" = r →
      do_GET st "/api/1/items" q = handle_list_items st r := by
    intro r hr
    rw [← hr]
    rw [do_GET, if_neg (by decide), if_pos (by decide)]
  refine ⟨?_, ?_, ?_, ?_⟩
  · intro h
    rw [hroute none h, handle_list_items]
  · intro s hs hint
    rw [hroute (some s) hs, handle_list_items]
    simp [hint]
  · intro s sid hs hint hrange
    rw [hroute (some s) hs, handle_list_items]
    simp [hint, if_neg hrange]
  · intro s sid hs hint h1 h2
    rw [hroute (some s) hs, handle_list_items]
    simp [hint, if_pos (And.intro h1 h2)]

/-- Witness for C8 at the four concrete query shapes. -/
theorem list_items_query_paths_witness :
    do_GET initStorage "/api/1/items" [] =
      (400, .jobj [("error", .jstr "sellerId is required")])
    ∧ do_GET initStorage "/api/1/items" [("sellerId", ["abc"])] =
      (400, .jobj [("error", .jstr "sellerId must be integer")])
    ∧ do_GET initStorage "/api/1/items" [("sellerId", ["111110"])] =
      (400, .jobj [("error", .jstr "sellerId must be in range 111111-999999")])
    ∧ do_GET initStorage "/api/1/items" [("sellerId", ["123456"])] =
      (200, .jobj [("items", .jarr ((list_by_seller initStorage 123456).map itemToJson))]) :=
  ⟨(list_items_query_paths initStorage []).1 rfl,
   (list_items_query_paths initStorage [("sellerId", ["abc"])]).2.1 "abc" rfl rfl,
   (list_items_query_paths initStorage [("sellerId", ["111110"])]).2.2.1 "111110"
      111110 rfl rfl (by decide),
   (list_items_query_paths initStorage [("sellerId", ["123456"])]).2.2.2 "123456"
      123456 rfl rfl (by decide) (by decide)⟩

/-! ## Claim C5: list-by-seller correctness -/

/-- C5.  For every store state and every in-range seller id, the list
handler answers 200 with exactly the items whose `sellerId` matches
(a permutation of the matching stored items: none omitted, none from
other sellers), sorted ascending by `createdAt` with equal timestamps
kept in creation order, and an empty match set yields 200 with an empty
sequence rather than an error. -/
theorem list_by_seller_correct :
    ∀ (st : Storage) (s : String) (sid : Int),
      pyInt s = some sid → 111111 ≤ sid → sid ≤ 999999 →
      handle_list_items st (some s) =
        (200, .jobj [("items", .jarr ((list_by_seller st sid).map itemToJson))])
      ∧ (list_by_seller st sid).Perm (sellerItems st sid)
      ∧ (∀ it, it ∈ list_by_seller st sid ↔
          it ∈ st.items.map Prod.snd ∧ it.sellerId = sid)
      ∧ List.Sorted createdAtLe (list_by_seller st sid)
      ∧ (∀ c : String,
          (list_by_seller st sid).filter (fun it => it.createdAt = c) =
            (sellerItems st sid).filter (fun it => it.createdAt = c))
      ∧ (sellerItems st sid = [] →
          handle_list_items st (some s) = (200, .jobj [("items", .jarr [])])) := by
  intro st s sid hint h1 h2
  have hresp : handle_list_items st (some s) =
      (200, .jobj [("items", .jarr ((list_by_seller st sid).map itemToJson))]) := by
    rw [handle_list_items]
    simp [hint, if_pos (And.intro h1 h2)]
  refine ⟨hresp, List.perm_insertionSort createdAtLe _, ?_, ?_, ?_, ?_⟩
  · intro it
    rw [list_by_seller, List.mem_insertionSort, sellerItems, List.mem_filter]
    simp
  · exact List.sorted_insertionSort createdAtLe _
  · intro c
    have hpair : ((sellerItems st sid).filter
        (fun it => it.createdAt = c)).Pairwise createdAtLe := by
      apply List.pairwise_of_forall_mem_list
      intro a ha b hb
      have ha' := (List.mem_filter.mp ha).2
      have hb' := (List.mem_filter.mp hb).2
      rw [decide_eq_true_eq] at ha' hb'
      rw [createdAtLe, ha', hb']
    have hsub : List.Sublist
        ((sellerItems st sid).filter (fun it => it.createdAt = c))
        (list_by_seller st sid) :=
      List.sublist_insertionSort hpair (List.filter_sublist _)
    have hself : ((sellerItems st sid).filter
          (fun it => it.createdAt = c)).filter (fun it => it.createdAt = c) =
        (sellerItems st sid).filter (fun it => it.createdAt = c) :=
      List.filter_eq_self.mpr fun a ha => (List.mem_filter.mp ha).2
    have hsubf : List.Sublist
        ((sellerItems st sid).filter (fun it => it.createdAt = c))
        ((list_by_seller st sid).filter (fun it => it.createdAt = c)) := by
      rw [← hself]
      exact List.Sublist.filter _ hsub
    have hlen : ((list_by_seller st sid).filter
          (fun it => it.createdAt = c)).length =
        ((sellerItems st sid).filter (fun it => it.createdAt = c)).length :=
      ((List.perm_insertionSort createdAtLe _).filter _).length_eq
    exact (hsubf.eq_of_length hlen.symm).symm
  · intro h
    rw [hresp, list_by_seller, h]
    rfl

/-- Witness for C5 on a one-item store and the matching seller id. -/
theorem list_by_seller_correct_witness :
    handle_list_items ⟨[("1", ⟨"1", "a", "b", 5, 123456, "T1"⟩)],
        [("1", ⟨"1", 0, 0, 0⟩)], 1⟩ (some "123456") =
      (200, .jobj [("items", .jarr ((list_by_seller
        ⟨[("1", ⟨"1", "a", "b", 5, 123456, "T1"⟩)],
         [("1", ⟨"1", 0, 0, 0⟩)], 1⟩ 123456).map itemToJson))]) :=
  (list_by_seller_correct ⟨[("1", ⟨"1", "a", "b", 5, 123456, "T1"⟩)],
      [("1", ⟨"1", 0, 0, 0⟩)], 1⟩ "123456" 123456 rfl (by decide) (by decide)).1

/-! ## Claim C6: the item/statistics invariant -/

theorem mem_keys_dictInsert {α : Type} {d : List (String × α)} {k a : String}
    {v : α} :
    a ∈ (dictInsert d k v).map Prod.fst ↔ a ∈ d.map Prod.fst ∨ a = k := by
  induction d with
  | nil => simp [dictInsert]
  | cons hd tl ih =>
    obtain ⟨k₀, v₀⟩ := hd
    by_cases hk : k₀ = k
    · subst hk
      simp [dictInsert]
      tauto
    · simp [dictInsert, hk, ih]
      tauto

theorem keys_dictInsert_nodup {α : Type} {d : List (String × α)} {k : String}
    {v : α} (h : (d.map Prod.fst).Nodup) :
    ((dictInsert d k v).map Prod.fst).Nodup := by
  induction d with
  | nil => simp [dictInsert]
  | cons hd tl ih =>
    obtain ⟨k₀, v₀⟩ := hd
    rw [List.map_cons, List.nodup_cons] at h
    by_cases hk : k₀ = k
    · subst hk
      simpa [dictInsert] using h
    · rw [dictInsert]
      simp only [if_neg hk, List.map_cons, List.nodup_cons]
      refine ⟨?_, ih h.2⟩
      rw [mem_keys_dictInsert]
      rintro (hm | rfl)
      · exact h.1 hm
      · exact hk rfl

theorem storeInv_insert_pair {st : Storage} (h : StoreInv st) (k : String)
    (it : Item) :
    StoreInv ⟨dictInsert st.items k it, dictInsert st.stats k ⟨k, 0, 0, 0⟩,
      st.counter + 1⟩ := by
  obtain ⟨hiff, hzero, hni, hns⟩ := h
  refine ⟨?_, ?_, keys_dictInsert_nodup hni, keys_dictInsert_nodup hns⟩
  · intro k'
    by_cases hk : k' = k
    · subst hk
      simp [dictGet_insert_self]
    · simp only [dictGet_insert_ne _ _ _ _ hk]
      exact hiff k'
  · intro k' s hs
    by_cases hk : k' = k
    · subst hk
      rw [dictGet_insert_self] at hs
      injection hs with hs
      exact hs.symm
    · rw [dictGet_insert_ne _ _ _ _ hk] at hs
      exact hzero k' s hs

theorem storeInv_create (st : Storage) (body : Option JVal) (now : String)
    (h : StoreInv st) : StoreInv (handle_create_item st body now).1 := by
  cases body with
  | none => simpa [handle_create_item, validate_item] using h
  | some j =>
    cases j with
    | jstr s => simpa [handle_create_item, validate_item] using h
    | jint n => simpa [handle_create_item, validate_item] using h
    | jarr xs => simpa [handle_create_item, validate_item] using h
    | jobj f =>
      cases hvf : validateFields f with
      | cons e es => simpa [handle_create_item, validate_item, hvf] using h
      | nil =>
        simp only [handle_create_item, validate_item, hvf, Storage.next_id]
        exact storeInv_insert_pair h _ _

/-- C6.  The invariant "every stored item has exactly one statistics
record, created in the same step and keyed by the same id, with all
counters 0" holds initially and is preserved by every request; moreover,
immediately after every successful create (201), the new item and its
zeroed statistics record both exist under the freshly assigned id. -/
theorem store_invariant :
    StoreInv initStorage
    ∧ (∀ (st : Storage) (req : Req), StoreInv st → StoreInv (step st req).1)
    ∧ (∀ (st stN : Storage) (body : Option JVal) (now : String) (v : JVal),
        handle_create_item st body now = (stN, some (201, v)) →
        dictGet stN.stats (Nat.repr (st.counter + 1)) =
            some ⟨Nat.repr (st.counter + 1), 0, 0, 0⟩
          ∧ (dictGet stN.items (Nat.repr (st.counter + 1))).isSome = true) := by
  refine ⟨?_, ?_, ?_⟩
  · refine ⟨fun k => by simp [initStorage, dictGet], fun k s hs => by
      simp [initStorage, dictGet] at hs, by simp [initStorage], by simp [initStorage]⟩
  · intro st req h
    cases req with
    | get path query => exact h
    | post path body now =>
      rw [step, do_POST]
      by_cases hp : pyRstripSlash path = "/api/1/item"
      · rw [if_pos hp]
        exact storeInv_create st body now h
      · rw [if_neg hp]
        exact h
  · intro st stN body now v hc
    cases body with
    | none => simp [handle_create_item, validate_item] at hc
    | some j =>
      cases j with
      | jstr s => simp [handle_create_item, validate_item] at hc
      | jint n => simp [handle_create_item, validate_item] at hc
      | jarr xs => simp [handle_create_item, validate_item] at hc
      | jobj f =>
        cases hvf : validateFields f with
        | cons e es =>
          simp [handle_create_item, validate_item, hvf] at hc
        | nil =>
          simp [handle_create_item, validate_item, hvf, Storage.next_id] at hc
          rw [← hc.1]
          simp [dictGet_insert_self]

/-- Witness for C6: the invariant survives a concrete successful create
on the empty store. -/
theorem store_invariant_witness :
    StoreInv (step initStorage (Req.post "/api/1/item"
      (some (mkPayload "x" "y" 1 123456)) "T")).1 :=
  store_invariant.2.1 initStorage
    (Req.post "/api/1/item" (some (mkPayload "x" "y" 1 123456)) "T")
    store_invariant.1

/-! ## Claim C4: identifier sequence -/

theorem handle_create_cases (st : Storage) (body : Option JVal) (now : String) :
    ((handle_create_item st body now).1 = st
      ∧ ∀ p, (handle_create_item st body now).2 = some p → p.1 ≠ 201)
    ∨ ((handle_create_item st body now).1.counter = st.counter + 1
        ∧ ∃ v, (handle_create_item st body now).2 = some (201, v)
            ∧ createdId v = some (Nat.repr (st.counter + 1))) := by
  cases body with
  | none =>
    left
    refine ⟨rfl, ?_⟩
    intro p hp
    simp [handle_create_item, validate_item] at hp
    rw [← hp]
    decide
  | some j =>
    cases j with
    | jstr s => left; exact ⟨rfl, fun p hp => by
        simp [handle_create_item, validate_item] at hp⟩
    | jint n => left; exact ⟨rfl, fun p hp => by
        simp [handle_create_item, validate_item] at hp⟩
    | jarr xs => left; exact ⟨rfl, fun p hp => by
        simp [handle_create_item, validate_item] at hp⟩
    | jobj f =>
      cases hvf : validateFields f with
      | cons e es =>
        left
        refine ⟨?_, ?_⟩
        · simp [handle_create_item, validate_item, hvf]
        · intro p hp
          simp [handle_create_item, validate_item, hvf] at hp
          rw [← hp]
          simp
      | nil =>
        right
        refine ⟨?_, ?_⟩
        · simp [handle_create_item, validate_item, hvf, Storage.next_id]
        · refine ⟨.jobj [("item", itemToJson
              ⟨Nat.repr (st.counter + 1), getStr f "title",
               getStr f "description", getInt f "price",
               getInt f "sellerId", now⟩)], ?_, ?_⟩
          · simp [handle_create_item, validate_item, hvf, Storage.next_id]
          · simp [createdId, itemToJson, dictGet]

theorem decValGo_digit {m : Nat} (h : m < 10) (acc : Nat) (cs : List Char) :
    decValGo (Nat.digitChar m :: cs) acc = decValGo cs (10 * acc + m) := by
  interval_cases m <;> rfl

theorem toDigitsCore_append (fuel : Nat) :
    ∀ (n : Nat) (ds : List Char),
      Nat.toDigitsCore 10 fuel n ds = Nat.toDigitsCore 10 fuel n [] ++ ds := by
  induction fuel with
  | zero => intro n ds; simp [Nat.toDigitsCore]
  | succ fuel ih =>
    intro n ds
    by_cases h : n / 10 = 0
    · simp [Nat.toDigitsCore, h]
    · simp only [Nat.toDigitsCore, h, if_false]
      rw [ih (n / 10) (Nat.digitChar (n % 10) :: ds),
        ih (n / 10) [Nat.digitChar (n % 10)]]
      simp

theorem decValGo_toDigitsCore (fuel : Nat) :
    ∀ (n : Nat), n < fuel → ∀ (ds : List Char) (acc : Nat),
      decValGo (Nat.toDigitsCore 10 fuel n ds) acc =
        decValGo ds (acc * 10 ^ (Nat.toDigitsCore 10 fuel n []).length + n) := by
  induction fuel with
  | zero => omega
  | succ fuel ih =>
    intro n hn ds acc
    by_cases h : n / 10 = 0
    · have hn10 : n < 10 := by omega
      have hmod : n % 10 = n := Nat.mod_eq_of_lt hn10
      simp only [Nat.toDigitsCore, h, if_true]
      rw [hmod, decValGo_digit hn10]
      simp only [List.length_singleton, pow_one]
      congr 1
      ring
    · have h2 : n / 10 < fuel := by omega
      simp only [Nat.toDigitsCore, h, if_false]
      rw [ih (n / 10) h2 (Nat.digitChar (n % 10) :: ds) acc,
        decValGo_digit (Nat.mod_lt _ (by norm_num))]
      rw [toDigitsCore_append fuel (n / 10) [Nat.digitChar (n % 10)],
        List.length_append, List.length_singleton]
      congr 1
      calc 10 * (acc * 10 ^ (Nat.toDigitsCore 10 fuel (n / 10) []).length
              + n / 10) + n % 10
          = acc * (10 ^ (Nat.toDigitsCore 10 fuel (n / 10) []).length * 10)
              + (10 * (n / 10) + n % 10) := by ring
        _ = acc * 10 ^ ((Nat.toDigitsCore 10 fuel (n / 10) []).length + 1)
              + n := by rw [← pow_succ, Nat.div_add_mod]

theorem toDigitsCore_ne_nil (fuel : Nat) :
    ∀ (n : Nat) (ds : List Char), ds ≠ [] →
      Nat.toDigitsCore 10 fuel n ds ≠ [] := by
  induction fuel with
  | zero => intro n ds h; simpa [Nat.toDigitsCore]
  | succ fuel ih =>
    intro n ds h
    by_cases hd : n / 10 = 0
    · simp [Nat.toDigitsCore, hd]
    · simp only [Nat.toDigitsCore, hd, if_false]
      exact ih _ _ (by simp)

theorem decVal_toDigits (n : Nat) : decVal (Nat.toDigits 10 n) = some n := by
  have hne : Nat.toDigits 10 n ≠ [] := by
    rw [Nat.toDigits]
    by_cases h : n / 10 = 0
    · simp [Nat.toDigitsCore, h]
    · simp only [Nat.toDigitsCore, h, if_false]
      exact toDigitsCore_ne_nil _ _ _ (by simp)
  have hval : decValGo (Nat.toDigits 10 n) 0 = some n := by
    rw [Nat.toDigits, decValGo_toDigitsCore (n + 1) n (by omega) [] 0]
    simp [decValGo]
  obtain ⟨c, cs, hcs⟩ := List.exists_cons_of_ne_nil hne
  rw [hcs] at hval ⊢
  exact hval

theorem natValue_repr (n : Nat) : natValue (Nat.repr n) = n := by
  rw [natValue, show (Nat.repr n).data = Nat.toDigits 10 n from rfl,
    decVal_toDigits]
  rfl

theorem runCreates_ids (reqs : List (Option JVal × String)) :
    ∀ st : Storage, (runCreates st reqs).2 =
      (List.range' (st.counter + 1) (runCreates st reqs).2.length).map
        Nat.repr := by
  induction reqs with
  | nil => intro st; simp [runCreates]
  | cons hd tl ih =>
    intro st
    obtain ⟨body, now⟩ := hd
    rw [runCreates]
    rcases handle_create_cases st body now with ⟨hst, hno⟩ | ⟨hc, v, hv, hid⟩
    · rcases hr : (handle_create_item st body now).2 with _ | p
      · simp only [hr]
        rw [hst]
        exact ih st
      · have hne : ¬p.1 = 201 := hno p hr
        simp only [hr, if_neg hne]
        rw [hst]
        exact ih st
    · have ihs := ih (handle_create_item st body now).1
      rw [hc] at ihs
      simp only [hv, if_pos rfl, if_true, hid, Option.map_some',
        Option.getD_some, List.singleton_append, List.length_cons]
      rw [List.range'_succ, List.map_cons]
      exact congrArg (List.cons (Nat.repr (st.counter + 1))) ihs

/-- C4.  Over any sequence of create requests against a fresh store, the
ids handed out by the successful creations are exactly the decimal
renderings of 1, 2, 3, ... in creation order (no gaps, no repeats), and
pairwise: any earlier id differs from any later id and has a strictly
smaller numeric value. -/
theorem created_ids_sequential (reqs : List (Option JVal × String)) :
    (runCreates initStorage reqs).2 =
      (List.range' 1 (runCreates initStorage reqs).2.length).map Nat.repr
    ∧ (runCreates initStorage reqs).2.Pairwise
        (fun a b => a ≠ b ∧ natValue a < natValue b) := by
  have h := runCreates_ids reqs initStorage
  have hcount : initStorage.counter = 0 := rfl
  rw [hcount, Nat.zero_add] at h
  refine ⟨h, ?_⟩
  rw [h, List.pairwise_map]
  refine List.Pairwise.imp ?_ (List.pairwise_lt_range' 1 _)
  intro a b hab
  refine ⟨?_, ?_⟩
  · intro hrepr
    have hnv := congrArg natValue hrepr
    rw [natValue_repr, natValue_repr] at hnv
    omega
  · rw [natValue_repr, natValue_repr]
    exact hab
